import Mathlib

/-!
Verification development for the hakoake-backend live-house crawler pipeline.

The definitions below are a shallow embedding of the Python source:

* houses/crawlers/crawler.py : the base crawler (name cleaning, name
  validation, the generic schedule extractor year handling, schedule and
  performer upserts, the crawl-run state machine inside a database
  transaction, and the crawler registry);
* houses/crawlers/malcolm.py : the Malcolm venue crawler year-rollover rule;
* houses/functions.py : the batch driver collect_schedules;
* performers/models.py : Performer.is_valid_artist_name,
  Performer.has_valid_online_presence, Performer.validate_full_artist_profile.

Conventions of the embedding:

* Python strings are Lean String / List Char.  Regular-expression
  substitutions and searches are hand-compiled to character-list scanners
  that reproduce leftmost, greedy, non-overlapping matching of the concrete
  patterns appearing in the source.
* The regex classes are modelled as follows: a whitespace character is one
  of space, tab, newline, carriage return, vertical tab, form feed or the
  ideographic space; a digit is an ASCII digit; a word character is an
  ASCII alphanumeric character, an underscore, or a Japanese character
  (hiragana, katakana, CJK ideograph).  Dollar anchors are modelled as end
  of string (no input of interest carries a trailing newline).
* Database state is an explicit Storage value; Django get_or_create and
  update_or_create are list operations on it; transaction.atomic is a
  combinator that discards the written state when the body raises.
* Network and the pykakasi romanizer are oracles passed as parameters;
  the behaviour of a relation query against an unsaved row, which decides
  what the performer-validation gate can observe, is an explicit
  parameter as well (see UnsavedQueryBehaviour).
-/

namespace Hakoake

/-! ### Character class helpers -/

/-- Whitespace as matched by the regex class backslash-s on the inputs of
interest (ASCII whitespace plus the ideographic space U+3000). -/
def isSpaceChar (c : Char) : Bool :=
  c == ' ' || c == '\t' || c == '\n' || c == '\r' ||
    c.val == 0x0b || c.val == 0x0c || c.val == 0x3000

/-- Digit as matched by the regex class backslash-d and by str.isdigit on
the inputs of interest: ASCII digits and full-width digits. -/
def isAsciiDigit (c : Char) : Bool :=
  ('0' ≤ c && c ≤ '9') || (0xff10 ≤ c.val && c.val ≤ 0xff19)

/-- Hiragana block U+3040 - U+309F. -/
def isHiragana (c : Char) : Bool :=
  0x3040 ≤ c.val && c.val ≤ 0x309f

/-- Katakana block U+30A0 - U+30FF. -/
def isKatakana (c : Char) : Bool :=
  0x30a0 ≤ c.val && c.val ≤ 0x30ff

/-- CJK ideographs as used by the source patterns (U+4E00 - U+9FAF). -/
def isKanji (c : Char) : Bool :=
  0x4e00 ≤ c.val && c.val ≤ 0x9faf

/-- The class [a-zA-Z hiragana katakana kanji] used by the name validators. -/
def isMeaningfulChar (c : Char) : Bool :=
  (('a' ≤ c && c ≤ 'z') || ('A' ≤ c && c ≤ 'Z')) ||
    isHiragana c || isKatakana c || isKanji c

/-- Word character for word-boundary matching: ASCII alphanumeric,
underscore, full-width digit, or a Japanese letter.  The kana punctuation
marks inside the kana blocks (the katakana middle dot U+30FB, the double
hyphen U+30A0 and the voicing marks U+309B and U+309C) are not word
characters, matching the Unicode word class. -/
def isWordChar (c : Char) : Bool :=
  c.isAlphanum || c == '_' || (0xff10 ≤ c.val && c.val ≤ 0xff19) ||
    (isHiragana c && c.val != 0x3040 && c.val != 0x309b && c.val != 0x309c) ||
    (isKatakana c && c.val != 0x30a0 && c.val != 0x30fb) ||
    isKanji c

/-- Lowercase a string (ASCII case folding, the identity on Japanese text,
matching what str.lower does on the inputs of interest). -/
def lowerChars (cs : List Char) : List Char :=
  cs.map Char.toLower

/-! ### Substring and prefix search -/

/-- Does the pattern occur at the head of the text. -/
def matchesAtHead : List Char → List Char → Bool
  | [], _ => true
  | _ :: _, [] => false
  | p :: ps, c :: cs => p == c && matchesAtHead ps cs

/-- Does the pattern occur anywhere in the text (re.search of a literal). -/
def containsSub (pat : List Char) : List Char → Bool
  | [] => pat.isEmpty
  | c :: cs => matchesAtHead pat (c :: cs) || containsSub pat cs

/-- Word-boundary search: the word occurs with no word character adjacent
on either side (the words searched for consist of word characters only,
so a boundary is exactly a non-word neighbour or the string edge). -/
def matchesWordAt (w : List Char) (cs : List Char) : Bool :=
  matchesAtHead w cs &&
    (match cs.drop w.length with
     | [] => true
     | c :: _ => !isWordChar c)

/-- Auxiliary scan for word-boundary search carrying the previous character. -/
def wordSearchAux (w : List Char) (prev : Option Char) : List Char → Bool
  | [] => false
  | c :: cs =>
      ((match prev with
        | none => true
        | some p => !isWordChar p) && matchesWordAt w (c :: cs)) ||
        wordSearchAux w (some c) cs

/-- Search for a whole word with word boundaries on both sides. -/
def containsWord (w : List Char) (cs : List Char) : Bool :=
  wordSearchAux w none cs

/-! ### Python strip helpers -/

/-- Strip characters satisfying the predicate from both ends. -/
def stripBy (p : Char → Bool) (cs : List Char) : List Char :=
  ((cs.dropWhile p).reverse.dropWhile p).reverse

/-- Python str.strip with no argument (whitespace). -/
def pyStrip (cs : List Char) : List Char :=
  stripBy isSpaceChar cs

/-- The punctuation set of the final strip in _clean_performer_name:
dash, space, slash, backslash, round and square and curly brackets,
the Japanese comma and the Japanese full stop. -/
def cleanStripChar (c : Char) : Bool :=
  c == '-' || c == ' ' || c == '/' || c == '\\' || c == '(' || c == ')' ||
    c == '[' || c == ']' || c == '{' || c == '}' || c == '、' || c == '。'

/-! ### Regex substitution driver

A matcher examines the head of the list: when the regex matches there it
returns the suffix after the match (every matcher below consumes at least
one character on success).  The driver reproduces re.sub with empty
replacement: scan left to right, replace each non-overlapping match,
continue after it.  Fuel keeps the recursion structural so that concrete
computations reduce definitionally. -/

def reSubAux (m : List Char → Option (List Char)) : Nat → List Char → List Char
  | 0, l => l
  | _ + 1, [] => []
  | fuel + 1, c :: cs =>
      match m (c :: cs) with
      | some rest => reSubAux m fuel (cs.drop (cs.length - rest.length))
      | none => c :: reSubAux m fuel cs

/-- Delete every match of the pattern recognised by the matcher. -/
def reSubAll (m : List Char → Option (List Char)) (l : List Char) : List Char :=
  reSubAux m l.length l

/-! ### The matchers of _clean_performer_name -/

/-- Matcher for the pricing pattern: a yen sign, optional whitespace, one
or more digits, then any run of digits and commas. -/
def yenMatch (l : List Char) : Option (List Char) :=
  match l with
  | c :: rest =>
      if c == '¥' || c == '￥' then
        let afterSpace := rest.dropWhile isSpaceChar
        match afterSpace with
        | d :: _ =>
            if isAsciiDigit d then
              some ((afterSpace.dropWhile isAsciiDigit).dropWhile
                (fun x => isAsciiDigit x || x == ','))
            else none
        | [] => none
      else none
  | [] => none

/-- Matcher for the time pattern (one or two digits, colon, two digits),
trying the two-digit hour first as the greedy engine does. -/
def timeMatch (l : List Char) : Option (List Char) :=
  match l with
  | a :: b :: c :: d :: e :: rest =>
      if isAsciiDigit a then
        if isAsciiDigit b && c == ':' && isAsciiDigit d && isAsciiDigit e then
          some rest
        else if b == ':' && isAsciiDigit c && isAsciiDigit d then
          some (e :: rest)
        else none
      else none
  | [a, b, c, d] =>
      if isAsciiDigit a && b == ':' && isAsciiDigit c && isAsciiDigit d then
        some []
      else none
  | _ => none

/-- Index of the start of the first occurrence of the literal 1D in the
list, if any. -/
def firstOneDIdx : List Char → Option Nat
  | '1' :: 'D' :: _ => some 0
  | _ :: cs => (firstOneDIdx cs).map (· + 1)
  | [] => none

/-- Index of the last closing round bracket in the list, if any. -/
def lastCloseParenIdx (cs : List Char) : Option Nat :=
  let rec go : List Char → Nat → Option Nat → Option Nat
    | [], _, acc => acc
    | c :: rest, i, acc =>
        go rest (i + 1) (if c == ')' then some i else acc)
  go cs 0 none

/-- Matcher for the drink-charge pattern: an opening round bracket, then
(on the same line, dot does not cross newlines) some text containing 1D,
up to the last closing round bracket that still has a 1D before it.  With
both stars greedy the match runs from the opening bracket to the last
closing bracket on the line that is preceded by an occurrence of 1D. -/
def drinkParenMatch (l : List Char) : Option (List Char) :=
  match l with
  | '(' :: rest =>
      let seg := rest.takeWhile (fun c => c != '\n')
      match firstOneDIdx seg with
      | none => none
      | some p =>
          -- the closing bracket must lie after the two characters of 1D
          match lastCloseParenIdx seg with
          | none => none
          | some j => if p + 2 ≤ j then some (rest.drop (j + 1)) else none
  | _ => none

/-- Matcher for the literal +1D. -/
def plusOneDMatch (l : List Char) : Option (List Char) :=
  match l with
  | '+' :: '1' :: 'D' :: rest => some rest
  | _ => none

/-- Matcher for the literal Japanese drink-charge phrase followed by 1D. -/
def entryDrinkMatch (l : List Char) : Option (List Char) :=
  match l with
  | '入' :: '場' :: '時' :: '別' :: '途' :: '1' :: 'D' :: rest => some rest
  | _ => none

/-- Day-of-week kanji set. -/
def isDayOfWeekKanji (c : Char) : Bool :=
  c == '月' || c == '火' || c == '水' || c == '木' || c == '金' ||
    c == '土' || c == '日'

/-- Matcher for a parenthesised day-of-week marker, with either ASCII or
full-width brackets on either side. -/
def dayOfWeekParenMatch (l : List Char) : Option (List Char) :=
  match l with
  | a :: b :: c :: rest =>
      if (a == '（' || a == '(') && isDayOfWeekKanji b && (c == '）' || c == ')') then
        some rest
      else none
  | _ => none

/-- Collapse every whitespace run to a single space (re.sub backslash-s-plus
to one space), with fuel for structural recursion. -/
def collapseWsAux : Nat → List Char → List Char
  | 0, l => l
  | _ + 1, [] => []
  | fuel + 1, c :: cs =>
      if isSpaceChar c then ' ' :: collapseWsAux fuel (cs.dropWhile isSpaceChar)
      else c :: collapseWsAux fuel cs

/-- Collapse whitespace runs to single spaces. -/
def collapseWs (l : List Char) : List Char :=
  collapseWsAux l.length l

/-- Embedding of LiveHouseWebsiteCrawler._clean_performer_name: strip, then
delete pricing, time, drink-charge and day-of-week tokens, collapse
whitespace, strip the punctuation set and finally strip whitespace. -/
def cleanPerformerName (name : String) : String :=
  if name = "" then ""
  else
    let cs := pyStrip name.toList
    let cs := reSubAll yenMatch cs
    let cs := reSubAll timeMatch cs
    let cs := reSubAll drinkParenMatch cs
    let cs := reSubAll plusOneDMatch cs
    let cs := reSubAll entryDrinkMatch cs
    let cs := reSubAll dayOfWeekParenMatch cs
    let cs := collapseWs cs
    let cs := stripBy cleanStripChar cs
    String.mk (pyStrip cs)

/-! ### The performer-name validity check (crawler.py _is_valid_performer_name) -/

/-- Split a list into its leading digit run and the remainder. -/
def digitsSplit (cs : List Char) : List Char × List Char :=
  (cs.takeWhile isAsciiDigit, cs.dropWhile isAsciiDigit)

/-- Prefix match for a yen sign directly followed by one or more digits. -/
def yenDigitLead (cs : List Char) : Bool :=
  match cs with
  | c :: d :: _ => (c == '¥' || c == '￥') && isAsciiDigit d
  | _ => false

/-- The navigation words rejected as whole names, compared lowercased. -/
def navWordList : List (List Char) :=
  ["about", "home", "schedule", "access", "news", "contact", "ticket",
   "staff", "act", "live"].map String.toList

/-- Full-string match of the date-only pattern: four digits, a separator,
one or two digits, a separator, one or two digits, an optional day kanji. -/
def dateOnlyPattern (cs : List Char) : Bool :=
  match cs with
  | a :: b :: c :: d :: s1 :: rest =>
      isAsciiDigit a && isAsciiDigit b && isAsciiDigit c && isAsciiDigit d &&
      (s1 == '-' || s1 == '/' || s1 == '年') &&
      (let (m, rest1) := digitsSplit rest
       (m.length == 1 || m.length == 2) &&
       (match rest1 with
        | s2 :: rest2 =>
            (s2 == '-' || s2 == '/' || s2 == '月') &&
            (let (dd, rest3) := digitsSplit rest2
             (dd.length == 1 || dd.length == 2) &&
             (rest3 == [] || rest3 == ['日']))
        | [] => false))
  | _ => false

/-- The punctuation class of the pure-punctuation rejection pattern. -/
def isPunctClassChar (c : Char) : Bool :=
  c == '-' || c == '/' || c == '\\' || c == '(' || c == ')' ||
    c == '（' || c == '）'

/-- Full-string match of a comma followed by digits (price fragment). -/
def commaPricePattern (cs : List Char) : Bool :=
  match cs with
  | ',' :: rest => rest ≠ [] && rest.all isAsciiDigit
  | _ => false

/-- The Japanese event-info words rejected as whole names. -/
def eventInfoWordList : List (List Char) :=
  ["予約", "料金", "時間", "開場", "開演"].map String.toList

/-- One of the rejection patterns of _is_valid_performer_name fires. -/
def hasInvalidPerformerPattern (cs : List Char) : Bool :=
  let lower := lowerChars cs
  yenDigitLead cs ||
  (timeMatch cs).isSome ||
  navWordList.contains lower ||
  dateOnlyPattern cs ||
  (match cs with
   | [c] => isDayOfWeekKanji c
   | _ => false) ||
  (cs ≠ [] && cs.all isAsciiDigit) ||
  (cs ≠ [] && cs.all isPunctClassChar) ||
  commaPricePattern cs ||
  containsSub (String.toList "food:") lower ||
  containsSub (String.toList "food：") lower ||
  containsSub (String.toList "入場時別途") cs ||
  containsSub (String.toList "start") lower ||
  containsSub (String.toList "open") lower ||
  containsSub (String.toList "door") lower ||
  eventInfoWordList.contains cs

/-- Embedding of LiveHouseWebsiteCrawler._is_valid_performer_name: reject
short strings, reject the listed non-performer patterns, require at least
one meaningful (Latin or Japanese) character, reject single characters. -/
def isValidPerformerName (name : String) : Bool :=
  let cs := name.toList
  if cs.length < 2 then false
  else if hasInvalidPerformerPattern cs then false
  else if !cs.any isMeaningfulChar then false
  else cs.length != 1

/-! ### The Performer model checks (performers/models.py) -/

/-- The word groups of the non-artist indicator patterns, searched with
word boundaries in the lowercased name. -/
def nonArtistWordGroups : List (List Char) :=
  (["dj", "host", "mc", "司会", "ホスト", "ナビゲーター", "進行",
    "schedule", "スケジュール", "calendar", "カレンダー",
    "staff", "スタッフ", "管理", "admin",
    "guest", "ゲスト", "客", "お客",
    "sound", "音響", "lighting", "照明", "tech", "技術",
    "food", "フード", "drink", "ドリンク", "bar", "バー",
    "ticket", "チケット", "reservation", "予約",
    "open", "close", "開", "閉", "start", "終",
    "doors", "ドア", "entrance", "入場", "exit", "退場"]).map String.toList

/-- Prefix match of digits, a colon, digits (time format). -/
def numColonLead (cs : List Char) : Bool :=
  let (d1, r) := digitsSplit cs
  d1 ≠ [] &&
    (match r with
     | ':' :: r2 => (r2.takeWhile isAsciiDigit) ≠ []
     | _ => false)

/-- Prefix match of digits followed by a year, month or day kanji. -/
def numDateUnitLead (cs : List Char) : Bool :=
  let (d1, r) := digitsSplit cs
  d1 ≠ [] &&
    (match r with
     | c :: _ => c == '年' || c == '月' || c == '日'
     | [] => false)

/-- Prefix match of a yen or dollar sign followed by digits. -/
def moneyLead (cs : List Char) : Bool :=
  match cs with
  | c :: d :: _ => (c == '¥' || c == '$') && isAsciiDigit d
  | _ => false

/-- One of the non-artist indicator patterns fires on the lowercased name. -/
def hasNonArtistPattern (lower : List Char) : Bool :=
  nonArtistWordGroups.any (fun w => containsWord w lower) ||
  numColonLead lower || numDateUnitLead lower || moneyLead lower

/-- Embedding of Performer.is_valid_artist_name: reject names hitting a
non-artist indicator, then require a stripped length of at least two and
a not purely numeric stripped name. -/
def isValidArtistName (name : String) : Bool :=
  if name = "" then false
  else if hasNonArtistPattern (lowerChars name.toList) then false
  else
    let stripped := pyStrip name.toList
    !(stripped.length < 2 || (stripped ≠ [] && stripped.all isAsciiDigit))

/-- A social link row of a performer. -/
structure SocialLink where
  platform : String
  platformId : String
  url : String
deriving DecidableEq

/-- An in-memory performer candidate as built by the crawler before any
database write: names, optional website, discovered social links. -/
structure PerformerCand where
  name : String
  nameKana : String
  nameRomaji : String
  website : String
  socialLinks : List SocialLink
deriving DecidableEq

/-- The platforms accepted by has_valid_online_presence. -/
def validSocialPlatforms : List String :=
  ["twitter", "instagram", "facebook", "youtube", "bandcamp", "soundcloud",
   "spotify", "apple_music", "tiktok", "discord", "twitch", "reddit",
   "linkedin", "vimeo", "github", "patreon", "mastodon"]

/-- The generic or venue domains that do not count as a dedicated site. -/
def genericSites : List String :=
  ["facebook.com", "twitter.com", "instagram.com", "venue.com",
   "livehouse.com", "event.com", "google.com", "yahoo.com", "example.com",
   "localhost", "127.0.0.1"]

/-- The website branch of Performer.has_valid_online_presence: a non-empty
website attribute that contains no generic-site domain and is longer than
ten characters. -/
def websitePresence (p : PerformerCand) : Bool :=
  p.website != "" &&
    (let w := lowerChars p.website.toList
     !(genericSites.any fun g => containsSub g.toList w) && w.length > 10)

/-- Embedding of the body of Performer.has_valid_online_presence as it
runs on a SAVED performer whose stored social_links relation holds the
given links: either a link on a recognised platform with a non-empty URL,
or the website branch.  For the candidates under validation, which are
unsaved, the relation is database-backed and never holds the discovered
links; that executed path is hasValidOnlinePresenceUnsaved below. -/
def hasValidOnlinePresence (p : PerformerCand) : Bool :=
  p.socialLinks.any
    (fun l =>
      validSocialPlatforms.contains (String.mk (lowerChars l.platform.toList)) &&
        l.url != "") ||
  websitePresence p

/-- The error text of the artist-name check. -/
def nameErrorText : String :=
  "Name does not appear to be a valid artist/band name."

/-- The error text of the online-presence check. -/
def presenceErrorText : String :=
  "Performer must have at least one social media account or a unique artist website."

/-- The error list built by Performer.validate_full_artist_profile on a
saved performer. -/
def validateArtistProfileErrors (p : PerformerCand) : List String :=
  (if !isValidArtistName p.name then [nameErrorText] else []) ++
  (if !hasValidOnlinePresence p then [presenceErrorText] else [])

/-- Embedding of Performer.validate_full_artist_profile on a saved
performer: raise the error list when non-empty, succeed otherwise. -/
def validateFullArtistProfile (p : PerformerCand) : Except (List String) Unit :=
  match validateArtistProfileErrors p with
  | [] => .ok ()
  | errs => .error errs

/-! ### The executed validation path on an UNSAVED candidate

The crawler validates a candidate BEFORE saving it (the source comments
this explicitly: the performer has no primary key during validation).  On
such an instance the social_links relation is a database-backed related
manager, and its use inside has_valid_online_presence does not see the
probe-discovered links (which could not be stored, see enrichCandidate):
the query either raises ValueError, the behaviour of current Django
releases for filters against unsaved instances and the behaviour the
repository test suite relies on, or matches no rows, the behaviour of
older releases where the filter degenerates to a null foreign key.  The
exceptions of this path are modelled explicitly so the handlers of
_search_for_performer_details can be embedded faithfully. -/

/-- The two observable behaviours of querying the social_links relation of
an unsaved performer. -/
inductive UnsavedQueryBehaviour
  | raisesValueError
  | matchesNoRows
deriving DecidableEq

/-- An exception escaping the profile validation: the ValidationError the
method itself raises, or the ValueError of the relation query. -/
inductive PyExc
  | validationError (msgs : List String)
  | valueError (msg : String)
deriving DecidableEq

/-- Embedding of Performer.has_valid_online_presence as executed on an
unsaved candidate: the social-link branch consults the stored relation,
raising or finding nothing according to the query behaviour and never
seeing the discovered links; only when the query returns does the website
branch run (the website attribute, set in memory by the band search, is
live). -/
def hasValidOnlinePresenceUnsaved (b : UnsavedQueryBehaviour)
    (p : PerformerCand) : Except PyExc Bool :=
  match b with
  | .raisesValueError =>
      .error (.valueError "Model instances passed to related filters must be saved.")
  | .matchesNoRows => .ok (websitePresence p)

/-- Embedding of Performer.validate_full_artist_profile as executed on an
unsaved candidate: the artist-name check runs first, then the presence
check hits the relation query; when that query raises, the ValueError
escapes before the error list is examined, so no ValidationError can be
produced regardless of the name check. -/
def validateFullArtistProfileUnsaved (b : UnsavedQueryBehaviour)
    (p : PerformerCand) : Except PyExc Unit :=
  let nameErrors := if !isValidArtistName p.name then [nameErrorText] else []
  match hasValidOnlinePresenceUnsaved b p with
  | .error e => .error e
  | .ok presence =>
      let errors := nameErrors ++ (if !presence then [presenceErrorText] else [])
      if errors.isEmpty then .ok () else .error (.validationError errors)

/-! ### Japanese name formatting (_format_japanese_performer_name) -/

/-- Leftmost greedy match of the full-width parenthetical pattern: one or
more non-opening characters, an opening bracket, one or more non-closing
characters, a closing bracket; returns the two groups. -/
def fwParenSearchAux : Nat → List Char → Option (List Char × List Char)
  | 0, _ => none
  | _ + 1, [] => none
  | fuel + 1, cs =>
      let g1 := cs.takeWhile (fun c => c != '（')
      if g1.isEmpty then fwParenSearchAux fuel cs.tail
      else
        match cs.drop g1.length with
        | '（' :: rest2 =>
            let g2 := rest2.takeWhile (fun c => c != '）')
            if g2.isEmpty then fwParenSearchAux fuel rest2
            else
              match rest2.drop g2.length with
              | '）' :: _ => some (g1, g2)
              | _ => fwParenSearchAux fuel rest2
        | _ => none

/-- Search driver for the parenthetical name pattern. -/
def fwParenSearch (cs : List Char) : Option (List Char × List Char) :=
  fwParenSearchAux cs.length cs

/-- A kana character (the class of the hiragana and katakana blocks). -/
def containsKanaChar (cs : List Char) : Bool :=
  cs.any (fun c => isHiragana c || isKatakana c)

/-- A Japanese character (kana blocks or CJK ideographs). -/
def containsJapaneseChar (cs : List Char) : Bool :=
  cs.any (fun c => isHiragana c || isKatakana c || isKanji c)

/-- Embedding of _format_japanese_performer_name: split the parenthetical
reading notation, the slash notation with one Japanese side, or mark a
middle-dot katakana label as kana. -/
def formatJapaneseName (p : PerformerCand) : PerformerCand :=
  let n := p.name.toList
  if n.contains '（' && n.contains '）' then
    match fwParenSearch n with
    | some (g1, g2) =>
        let mainName := String.mk (pyStrip g1)
        let reading := String.mk (pyStrip g2)
        if containsKanaChar reading.toList then
          { p with name := mainName, nameKana := reading }
        else
          { p with name := mainName, nameRomaji := reading }
    | none => p
  else if n.contains '/' && (n.splitOn '/').length == 2 then
    match n.splitOn '/' with
    | [a, b] =>
        let part1 := String.mk (pyStrip a)
        let part2 := String.mk (pyStrip b)
        let hasJp1 := containsJapaneseChar part1.toList
        let hasJp2 := containsJapaneseChar part2.toList
        if hasJp1 && !hasJp2 then { p with name := part1, nameRomaji := part2 }
        else if hasJp2 && !hasJp1 then { p with name := part2, nameRomaji := part1 }
        else p
    | _ => p
  else if n.contains '・' then
    if n.any isKatakana then { p with nameKana := p.name } else p
  else p

/-! ### The online-presence probe and the validation gate -/

/-- Outcome of the outbound web searches for one candidate name: the
website found by _search_band_details (if any) and the social links found
by _search_social_media_links (already capped at five by that search). -/
structure ProbeResult where
  bandWebsite : Option String
  socialLinks : List SocialLink
deriving DecidableEq

/-- Apply the discoveries of the probe to the unsaved candidate.  The
website found by the band search is a plain in-memory attribute write
(_update_performer_from_band_info) and takes effect when the candidate has
none.  The discovered social links take NO effect on the candidate:
_update_performer_social_links only attempts
PerformerSocialLink.objects.create against the unsaved performer, which
raises (the foreign key row does not exist) and is swallowed by the
enclosing blanket handler, so no link row is ever created and the
candidate list of links is unchanged. -/
def enrichCandidate (res : ProbeResult) (p : PerformerCand) : PerformerCand :=
  match res.bandWebsite with
  | some w => if p.website = "" then { p with website := w } else p
  | none => p

/-- Embedding of _search_for_performer_details on a new (unsaved)
candidate: format the Japanese name, apply the website discovered by the
band search (the discovered social links never attach, see
enrichCandidate), then run the profile validation as executed on the
unsaved instance.  A ValidationError is converted to
PerformerValidationError and re-raised; any other exception, in
particular the ValueError of the relation query, reaches the outer
blanket handler, is logged and swallowed, and the function returns
normally, accepting the candidate. -/
def searchForPerformerDetails (b : UnsavedQueryBehaviour)
    (probe : String → ProbeResult) (p : PerformerCand) :
    Except String PerformerCand :=
  let p1 := formatJapaneseName p
  let q := enrichCandidate (probe p1.name) p1
  match validateFullArtistProfileUnsaved b q with
  | .ok _ => .ok q
  | .error (.validationError _) =>
      .error ("Cannot validate " ++ q.name ++ " as a legitimate performer")
  | .error (.valueError _) => .ok q

/-- Modelled from the spec: the acceptance rule of section 4.7 for a new
candidate — accept iff the name passes the section 4.1 validity check and
at least one social link was found or a non-generic dedicated website was
found.  The source documents the same intent (the docstrings of
_search_for_performer_details and has_valid_online_presence, the error
text of validate_full_artist_profile and the rejection log message), but
its executed path differs; the missing piece the program would need — a
way for the discovered links to reach the presence check of the unsaved
candidate — exists nowhere in the source. -/
def specGateAccepts (probe : String → ProbeResult) (p : PerformerCand) : Bool :=
  let p1 := formatJapaneseName p
  let res := probe p1.name
  isValidPerformerName p1.name &&
    (!res.socialLinks.isEmpty ||
     (match res.bandWebsite with
      | some w =>
          !(genericSites.any fun g => containsSub g.toList (lowerChars w.toList))
      | none => false))

/-! ### Date resolution (C3) -/

/-- Two-digit zero padding, the format 02d. -/
def pad2 (n : Nat) : String :=
  if n < 10 then "0" ++ toString n else toString n

/-- The year-month-day date string built by the crawlers. -/
def fmtDate (y m d : Nat) : String :=
  toString y ++ "-" ++ pad2 m ++ "-" ++ pad2 d

/-- Embedding of the year choice of MalcolmCrawler.extract_performance_schedules:
start from the current year, and add one when the parsed month lies
strictly before the current month. -/
def malcolmYearFor (currentYear currentMonth month : Nat) : Nat :=
  let year := currentYear
  if month < currentMonth then year + 1 else year

/-- The date string the Malcolm extractor emits for a month/day token. -/
def malcolmScheduleDate (currentYear currentMonth month day : Nat) : String :=
  fmtDate (malcolmYearFor currentYear currentMonth month) month day

/-- The fixed default year of the generic schedule extractor
(_generic_extract_performance_schedules sets current_year to 2025). -/
def genericExtractorDefaultYear : Nat := 2025

/-- Year the generic extractor assigns to a month/day-only date: the fixed
default year, with no reference to the reference date. -/
def genericPartialDateYear (_month _day : Nat) : Nat :=
  genericExtractorDefaultYear

/-- Range validation and formatting of the generic extractor: years 2024
to 2026, months 1 to 12, days 1 to 31, others silently discarded. -/
def genericValidDate (y m d : Nat) : Option String :=
  if 2024 ≤ y && y ≤ 2026 && 1 ≤ m && m ≤ 12 && 1 ≤ d && d ≤ 31 then
    some (fmtDate y m d)
  else none

/-- The date string the generic extractor emits for a month/day token. -/
def genericPartialDate (m d : Nat) : Option String :=
  genericValidDate (genericPartialDateYear m d) m d

/-- Modelled from the spec: the universal roll-forward rule of section 4.2
for month/day-only dates; when the parsed month is strictly smaller than
the reference month the event is assumed to fall in the next calendar
year, otherwise in the reference year. -/
def specRollForwardYear (refYear refMonth month : Nat) : Nat :=
  if month < refMonth then refYear + 1 else refYear

/-! ### Storage: the data model rows and the Django operations on them -/

/-- Website processing states (houses/definitions.py). -/
inductive WebsiteState
  | notStarted
  | inProgress
  | completed
  | failed
deriving DecidableEq

/-- Venue collection outcomes (houses/definitions.py). -/
inductive CollectionState
  | pending
  | success
  | error
  | timeout
deriving DecidableEq

/-- Failure of a page fetch: a requests.Timeout or any other request
error raised by raise_for_status. -/
inductive FetchError
  | timeout
  | http
deriving DecidableEq

/-- Exceptions of a crawl run.  The unknownCrawlerError constructor is
modelled from the spec: the spec names an UnknownCrawlerError exception
for registry misses, and the constructor makes that statement expressible;
the source itself defines no such class. -/
inductive CrawlError
  | fetchTimeout
  | fetchFailed
  | valueError (msg : String)
  | unknownCrawlerError
deriving DecidableEq

/-- A LiveHouseWebsite row. -/
structure WebsiteRow where
  id : Nat
  url : String
  state : WebsiteState
  crawlerClass : String
deriving DecidableEq

/-- A LiveHouse row (the fields the claims touch: identity, owning
website, name, collection outcome, and whether the last collection
happened today). -/
structure LiveHouseRow where
  id : Nat
  websiteId : Nat
  name : String
  lastCollectionState : CollectionState
  collectedToday : Bool
deriving DecidableEq

/-- A PerformanceSchedule row with its many-to-many performer names. -/
structure ScheduleRow where
  liveHouseId : Nat
  performanceDate : String
  openTime : String
  startTime : String
  performanceName : String
  performerNames : List String
deriving DecidableEq

/-- A Performer row. -/
structure PerformerRow where
  name : String
  nameKana : String
  nameRomaji : String
  website : String
deriving DecidableEq

/-- The database as a whole. -/
structure Storage where
  websites : List WebsiteRow
  liveHouses : List LiveHouseRow
  schedules : List ScheduleRow
  performers : List PerformerRow
deriving DecidableEq

/-- Save a website row with a new processing state. -/
def setWebsiteState (s : Storage) (wid : Nat) (st : WebsiteState) : Storage :=
  { s with websites :=
      s.websites.map (fun w => if w.id == wid then { w with state := st } else w) }

/-- Save a live house row with a new collection outcome. -/
def setVenueOutcome (s : Storage) (lhId : Nat) (st : CollectionState) : Storage :=
  { s with liveHouses :=
      s.liveHouses.map (fun h =>
        if h.id == lhId then { h with lastCollectionState := st } else h) }

/-- Success path of a run: record the collection timestamp (today) and the
SUCCESS outcome on the live house. -/
def setVenueSuccess (s : Storage) (lhId : Nat) : Storage :=
  { s with liveHouses :=
      s.liveHouses.map (fun h =>
        if h.id == lhId then
          { h with lastCollectionState := .success, collectedToday := true }
        else h) }

/-! ### Schedule and performer upserts (C4, C5) -/

/-- The natural key of a performance schedule: live house, date, start. -/
def scheduleKeyEq (lhId : Nat) (date startTime : String) (r : ScheduleRow) : Bool :=
  r.liveHouseId == lhId && r.performanceDate == date && r.startTime == startTime

/-- Index of the first element satisfying the predicate. -/
def findFirstIdx (p : α → Bool) : List α → Option Nat
  | [] => none
  | x :: xs => if p x then some 0 else (findFirstIdx p xs).map (· + 1)

/-- Embedding of PerformanceSchedule.objects.get_or_create on the key
(live_house, performance_date, start_time) with defaults open_time and
performance_name: an existing row is returned untouched, otherwise a new
row is appended.  The result carries the index of the row. -/
def scheduleGetOrCreate (rows : List ScheduleRow) (lhId : Nat)
    (date startTime openTime perfName : String) : List ScheduleRow × Nat :=
  match findFirstIdx (scheduleKeyEq lhId date startTime) rows with
  | some i => (rows, i)
  | none =>
      (rows ++ [{ liveHouseId := lhId, performanceDate := date,
                  openTime := openTime, startTime := startTime,
                  performanceName := perfName, performerNames := [] }],
       rows.length)

/-- Strip trailing slashes and backslashes (the rstrip in Performer.save). -/
def rstripSlashes (cs : List Char) : List Char :=
  (cs.reverse.dropWhile (fun c => c == '/' || c == '\\')).reverse

/-- The name cleaning Performer.save applies before writing: strip
whitespace, strip trailing slashes, remove a case-insensitive BAND:
prefix together with the whitespace after it. -/
def performerSaveClean (s : String) : String :=
  let cs := rstripSlashes (pyStrip s.toList)
  if matchesAtHead (String.toList "band:") (lowerChars cs) then
    String.mk ((cs.drop 5).dropWhile isSpaceChar)
  else String.mk cs

/-- Embedding of Performer.objects.get_or_create keyed on name_romaji with
name, kana and website defaults: an existing row with the same romaji is
returned untouched (so the earlier display name wins), otherwise a new row
is created, going through the save cleaning. -/
def performerGetOrCreateByRomaji (rows : List PerformerRow)
    (romaji name kana website : String) : List PerformerRow × PerformerRow :=
  match rows.find? (fun r => r.nameRomaji == romaji) with
  | some r => (rows, r)
  | none =>
      let r : PerformerRow :=
        { name := performerSaveClean name, nameKana := performerSaveClean kana,
          nameRomaji := performerSaveClean romaji, website := website }
      (rows ++ [r], r)

/-! ### Building one performance schedule (create_performance_schedule) -/

/-- The network and romanizer collaborators of a crawl run. -/
structure CrawlOracles where
  fetch : String → Except FetchError String
  probe : String → ProbeResult
  romanize : String → String × String
  unsavedQuery : UnsavedQueryBehaviour

/-- An extracted schedule entry, the payload of extract_performance_schedules.
Entries whose performers arrive as one delimited string, and the optional
ticket context, are outside the claims and are not modelled. -/
structure ScheduleData where
  date : String
  openTime : String
  startTime : String
  performers : List String
  performanceName : Option String
deriving DecidableEq

/-- The clean-and-filter pass over raw performer names. -/
def cleanValidNames (names : List String) : List String :=
  (names.map cleanPerformerName).filter
    (fun n => n != "" && isValidPerformerName n)

/-- A fresh candidate built from a raw name with the pykakasi readings. -/
def buildCandidate (env : CrawlOracles) (name : String) : PerformerCand :=
  { name := name, nameKana := (env.romanize name).1,
    nameRomaji := (env.romanize name).2, website := "", socialLinks := [] }

/-- A validated performer: an existing trusted row reused by exact display
name, or a fresh candidate that passed the online-presence gate. -/
inductive ValidPerformer
  | existing (row : PerformerRow)
  | fresh (cand : PerformerCand)
deriving DecidableEq

/-- The validation loop of create_performance_schedule: reuse an existing
performer matched by display name without re-validation, otherwise run the
probe-backed validation; candidates that raise are dropped. -/
def collectValidPerformers (env : CrawlOracles) (performers : List PerformerRow) :
    List String → List ValidPerformer
  | [] => []
  | n :: rest =>
      match performers.find? (fun r => r.name == n) with
      | some row => .existing row :: collectValidPerformers env performers rest
      | none =>
          match searchForPerformerDetails env.unsavedQuery env.probe
              (buildCandidate env n) with
          | .ok c => .fresh c :: collectValidPerformers env performers rest
          | .error _ => collectValidPerformers env performers rest

/-- Save the validated performers: fresh candidates go through the
get-or-create keyed on romaji, existing rows are used as they are; the
returned names are the display names added to the schedule. -/
def savePerformers (performers : List PerformerRow) :
    List ValidPerformer → List PerformerRow × List String
  | [] => (performers, [])
  | .existing row :: rest =>
      let (ps, ns) := savePerformers performers rest
      (ps, row.name :: ns)
  | .fresh c :: rest =>
      let (ps1, row) :=
        performerGetOrCreateByRomaji performers c.nameRomaji c.name c.nameKana c.website
      let (ps, ns) := savePerformers ps1 rest
      (ps, row.name :: ns)

/-- Add performer names to the many-to-many set of a schedule (adding an
already-related performer is a no-op). -/
def addPerformerNames (cur : List String) (ns : List String) : List String :=
  ns.foldl (fun acc n => if acc.contains n then acc else acc ++ [n]) cur

/-- Embedding of create_performance_schedule: clean and filter the raw
names, validate every candidate before any database write, raise when no
valid performer remains, otherwise upsert the schedule row by its natural
key, save the fresh performers by romaji upsert and attach all of them. -/
def createPerformanceSchedule (env : CrawlOracles) (s : Storage)
    (lh : LiveHouseRow) (d : ScheduleData) :
    Except CrawlError (Storage × ScheduleRow) :=
  let names := cleanValidNames d.performers
  let valids := collectValidPerformers env s.performers names
  if valids.isEmpty then
    .error (.valueError "No valid performers for this schedule")
  else
    let (schedules1, idx) :=
      scheduleGetOrCreate s.schedules lh.id d.date d.startTime d.openTime
        (d.performanceName.getD "")
    let (performers1, addedNames) := savePerformers s.performers valids
    match schedules1.get? idx with
    | some row =>
        let row2 :=
          { row with performerNames := addPerformerNames row.performerNames addedNames }
        .ok ({ s with schedules := schedules1.set idx row2, performers := performers1 },
             row2)
    | none => .error (.valueError "schedule row lookup failed")

/-- The per-entry loop of process_performance_schedules: a failing entry
is caught and logged, the loop continues; the created count is returned. -/
def processSchedulesLoop (env : CrawlOracles) (lh : LiveHouseRow) :
    Storage → List ScheduleData → Storage × Nat
  | s, [] => (s, 0)
  | s, d :: rest =>
      match createPerformanceSchedule env s lh d with
      | .ok (s1, _) =>
          let (s2, n) := processSchedulesLoop env lh s1 rest
          (s2, n + 1)
      | .error _ => processSchedulesLoop env lh s rest

/-! ### The crawl run state machine (run, C1 and C10) -/

/-- Classify an exception into an outbound error. -/
def fetchToError : FetchError → CrawlError
  | .timeout => .fetchTimeout
  | .http => .fetchFailed

/-- The collection outcome the exception handlers of run record: TIMEOUT
for a requests.Timeout, ERROR for everything else. -/
def stateForError : CrawlError → CollectionState
  | .fetchTimeout => .timeout
  | _ => .error

/-- The live house data returned by extract_live_house_info (reduced to
the fields the claims touch). -/
structure LiveHouseData where
  name : String
deriving DecidableEq

/-- A venue strategy: the overridable capability set of a crawler class.
The extraction functions are pure functions of the page content (and, for
the live house info, of the stored state, which the generic implementation
reads and can fail on). -/
structure Strategy where
  extractLiveHouseInfo : Storage → WebsiteRow → String → Except CrawlError LiveHouseData
  findScheduleLink : String → Option String
  extractSchedules : String → List ScheduleData
  findNextMonthLink : String → Option String

/-- Embedding of create_or_update_live_house: update the first live house
of the website in place, or create a new row. -/
def createOrUpdateLiveHouse (s : Storage) (w : WebsiteRow) (d : LiveHouseData) :
    Storage × LiveHouseRow :=
  match s.liveHouses.find? (fun h => h.websiteId == w.id) with
  | some h =>
      let h2 := { h with name := d.name }
      ({ s with liveHouses :=
          s.liveHouses.map (fun x => if x.id == h.id then h2 else x) }, h2)
  | none =>
      let h : LiveHouseRow :=
        { id := s.liveHouses.length + 1, websiteId := w.id, name := d.name,
          lastCollectionState := .pending, collectedToday := false }
      ({ s with liveHouses := s.liveHouses ++ [h] }, h)

/-- Embedding of process_performance_schedules: fetch the schedule page,
extract, follow the next month link when found and fetch and extract it
too, then run the per-entry creation loop.  The fetches are the only
raising operations and they precede every write of the loop. -/
def processPerformanceSchedules (env : CrawlOracles) (strat : Strategy)
    (s : Storage) (lh : LiveHouseRow) (scheduleUrl : String) :
    Except CrawlError Storage :=
  match env.fetch scheduleUrl with
  | .error e => .error (fetchToError e)
  | .ok content =>
      let schedules := strat.extractSchedules content
      match strat.findNextMonthLink content with
      | none => .ok (processSchedulesLoop env lh s schedules).1
      | some nextUrl =>
          match env.fetch nextUrl with
          | .error e => .error (fetchToError e)
          | .ok nextContent =>
              .ok (processSchedulesLoop env lh s
                    (schedules ++ strat.extractSchedules nextContent)).1

/-- The body of run as executed inside the transaction: mark the website
in progress, fetch the main page, upsert the venue, process the schedules,
and on success record the SUCCESS outcome and the COMPLETED state.  The
exception handlers write the FAILED state, and the venue outcome only when
the live_house local is already bound (it is not when the main fetch or
the info extraction raised); the exception is returned alongside the
written state. -/
def runBody (env : CrawlOracles) (strat : Strategy) (s0 : Storage)
    (w : WebsiteRow) : Storage × Option CrawlError :=
  let s1 := setWebsiteState s0 w.id .inProgress
  match env.fetch w.url with
  | .error e => (setWebsiteState s1 w.id .failed, some (fetchToError e))
  | .ok mainContent =>
      match strat.extractLiveHouseInfo s1 w mainContent with
      | .error e => (setWebsiteState s1 w.id .failed, some e)
      | .ok lhData =>
          let (s2, lh) := createOrUpdateLiveHouse s1 w lhData
          let afterSchedules :=
            match strat.findScheduleLink mainContent with
            | some scheduleUrl => processPerformanceSchedules env strat s2 lh scheduleUrl
            | none => .ok s2
          match afterSchedules with
          | .error e =>
              (setWebsiteState (setVenueOutcome s2 lh.id (stateForError e)) w.id .failed,
               some e)
          | .ok s3 =>
              (setWebsiteState (setVenueSuccess s3 lh.id) w.id .completed, none)

/-- Embedding of run: the whole body executes inside transaction.atomic
and re-raises, so when the body ends in an exception every write of the
body, the handler writes included, is rolled back. -/
def run (env : CrawlOracles) (strat : Strategy) (s0 : Storage) (w : WebsiteRow) :
    Storage × Option CrawlError :=
  match runBody env strat s0 w with
  | (s1, none) => (s1, none)
  | (_, some e) => (s0, some e)

/-! ### Registry and batch driver (CrawlerRegistry, collect_schedules) -/

/-- Embedding of CrawlerRegistry.run_crawler: look the crawler class up by
the string key of the website and run it; a miss raises a ValueError and
runs nothing. -/
def runCrawler (registry : String → Option Strategy) (env : CrawlOracles)
    (s : Storage) (w : WebsiteRow) : Storage × Option CrawlError :=
  match registry w.crawlerClass with
  | some strat => run env strat s w
  | none =>
      (s, some (.valueError ("No crawler found for class: " ++ w.crawlerClass)))

/-- The tallies of the batch driver. -/
structure BatchCounts where
  success : Nat
  failed : Nat
deriving DecidableEq

/-- One iteration of the collect_schedules loop: run the crawler; on
success count it, on failure count it and save the FAILED state on the
website outside the transaction of the run. -/
def collectIteration (registry : String → Option Strategy) (env : CrawlOracles)
    (acc : Storage × BatchCounts) (w : WebsiteRow) : Storage × BatchCounts :=
  match runCrawler registry env acc.1 w with
  | (s1, none) => (s1, { acc.2 with success := acc.2.success + 1 })
  | (s1, some _) =>
      (setWebsiteState s1 w.id .failed, { acc.2 with failed := acc.2.failed + 1 })

/-- The batch loop over the selected websites. -/
def collectLoop (registry : String → Option Strategy) (env : CrawlOracles)
    (s : Storage) (ws : List WebsiteRow) (counts : BatchCounts) :
    Storage × BatchCounts :=
  ws.foldl (collectIteration registry env) (s, counts)

/-- The selection filter of collect_schedules: websites with a crawler
class whose venues were not already successfully collected today. -/
def websitesToCrawl (s : Storage) : List WebsiteRow :=
  s.websites.filter (fun w =>
    w.crawlerClass != "" &&
    !(s.liveHouses.any (fun h =>
        h.websiteId == w.id && h.collectedToday &&
          h.lastCollectionState == CollectionState.success)))

/-- Embedding of collect_schedules: select, then loop with zeroed tallies. -/
def collectSchedules (registry : String → Option Strategy) (env : CrawlOracles)
    (s : Storage) : Storage × BatchCounts :=
  collectLoop registry env s (websitesToCrawl s) { success := 0, failed := 0 }

/-! ### Demo fixtures shared by witnesses and counterexamples -/

/-- A website wired to the base crawler strategy. -/
def demoWebsite : WebsiteRow :=
  { id := 1, url := "https://example.jp", state := .notStarted,
    crawlerClass := "LiveHouseWebsiteCrawler" }

/-- A venue of the demo website with a PENDING outcome. -/
def demoVenue : LiveHouseRow :=
  { id := 1, websiteId := 1, name := "Test Venue",
    lastCollectionState := .pending, collectedToday := false }

/-- A store holding the demo website and venue and nothing else. -/
def demoStorage : Storage :=
  { websites := [demoWebsite], liveHouses := [demoVenue],
    schedules := [], performers := [] }

/-- Oracles whose every fetch times out and whose probe finds nothing,
under the relation-query behaviour of the older releases (the one where
the validation gate can still reject). -/
def timeoutEnv : CrawlOracles :=
  { fetch := fun _ => .error .timeout,
    probe := fun _ => { bandWebsite := none, socialLinks := [] },
    romanize := fun n => (n, n),
    unsavedQuery := .matchesNoRows }

/-- A strategy with the shape of the generic implementations: reuse the
stored venue data, point at a schedule page, extract nothing. -/
def demoStrategy : Strategy :=
  { extractLiveHouseInfo := fun s w _ =>
      match s.liveHouses.find? (fun h => h.websiteId == w.id) with
      | some h => .ok { name := h.name }
      | none => .error (.valueError "No LiveHouse entry found for website")
    findScheduleLink := fun _ => some "https://example.jp/schedule"
    extractSchedules := fun _ => []
    findNextMonthLink := fun _ => none }

/-- A twitter link used by the presence fixtures. -/
def demoTwitterLink : SocialLink :=
  { platform := "twitter", platformId := "demoband",
    url := "https://twitter.com/demoband" }

/-- A schedule entry whose only performer candidate is unknown and will
fail the online-presence probe. -/
def ghostEntry : ScheduleData :=
  { date := "2025-01-05", openTime := "18:30", startTime := "19:00",
    performers := ["Ghost Band"], performanceName := none }

/-- A probe that finds one twitter link and no website for every name. -/
def socialProbe : String → ProbeResult :=
  fun _ => { bandWebsite := none, socialLinks := [demoTwitterLink] }

/-- A probe that finds nothing. -/
def emptyProbe : String → ProbeResult :=
  fun _ => { bandWebsite := none, socialLinks := [] }

/-- A fresh candidate with a name that passes every name check. -/
def realBandCand : PerformerCand :=
  { name := "Real Band", nameKana := "Real Band", nameRomaji := "real band",
    website := "", socialLinks := [] }

/-- A fresh candidate with a valid name and no online presence at all. -/
def ghostCand : PerformerCand :=
  { name := "Ghost Band", nameKana := "Ghost Band", nameRomaji := "ghost band",
    website := "", socialLinks := [] }

/-! ### Helper lemmas on list search -/

theorem findFirstIdx_eq_none_of_countP_zero {p : α → Bool} :
    ∀ {l : List α}, l.countP p = 0 → findFirstIdx p l = none := by
  intro l
  induction l with
  | nil => intro _; rfl
  | cons x xs ih =>
      intro h
      rw [List.countP_cons] at h
      have hx : p x = false := by
        cases hp : p x with
        | false => rfl
        | true => simp [hp] at h
      have hxs : xs.countP p = 0 := by
        simpa [hx] using h
      simp [findFirstIdx, hx, ih hxs]

theorem findFirstIdx_append_singleton {p : α → Bool} {r : α} :
    ∀ {l : List α}, findFirstIdx p l = none → p r = true →
      findFirstIdx p (l ++ [r]) = some l.length := by
  intro l
  induction l with
  | nil => intro _ hr; simp [findFirstIdx, hr]
  | cons x xs ih =>
      intro h hr
      have hx : p x = false := by
        cases hp : p x with
        | false => rfl
        | true => simp [findFirstIdx, hp] at h
      have hxs : findFirstIdx p xs = none := by
        simp [findFirstIdx, hx] at h
        cases hfix : findFirstIdx p xs with
        | none => rfl
        | some i => rw [hfix] at h; simp at h
      simp [findFirstIdx, hx, ih hxs hr]

theorem find?_eq_none_of_countP_zero {p : α → Bool} :
    ∀ {l : List α}, l.countP p = 0 → l.find? p = none := by
  intro l
  induction l with
  | nil => intro _; rfl
  | cons x xs ih =>
      intro h
      rw [List.countP_cons] at h
      have hx : p x = false := by
        cases hp : p x with
        | false => rfl
        | true => simp [hp] at h
      have hxs : xs.countP p = 0 := by
        simpa [hx] using h
      simp [List.find?, hx, ih hxs]

theorem find?_append_singleton {p : α → Bool} {r : α} :
    ∀ {l : List α}, l.find? p = none → p r = true →
      (l ++ [r]).find? p = some r := by
  intro l
  induction l with
  | nil => intro _ hr; simp [List.find?, hr]
  | cons x xs ih =>
      intro h hr
      have hx : p x = false := by
        cases hp : p x with
        | false => rfl
        | true => simp [List.find?, hp] at h
      have hxs : xs.find? p = none := by
        simpa [List.find?, hx] using h
      simp [List.find?, hx, ih hxs hr]

/-- Representative inputs for the cleaning function: the name strings
exercised by the repository test suite and the spec examples. -/
def cleanNameTestInputs : List String :=
  ["Band A", "テストバンド", "19:00", "¥3000", "SCHEDULE", "月", "123", "---",
   "Real Band", "PRESALE", "Another Band", "Y3000", "Third Band", "DAY_OF",
   "Artist A", "Artist B", "Artist C", "  Trimmed  ", "  Spaces  ",
   "Single Artist", "Current Month Band", "Next Month Band", "December Band",
   "January Band", "y%TESTBand A (from Tokyo)", "Band B [TEST]", "$* #",
   "Artist (UK)", "入場時別途1D", "(月)", "+1D", "OPEN 18:00 / START 18:30",
   "東京スカパラダイスオーケストラ", "DJ Krush", "バンド・ホスト", ""]

/-! ### C7: idempotence of the cleaning function -/

/-- C7 counterexample: cleanName is not idempotent on every input.  On the
input ¥(1D)1 the first pass removes the drink-charge bracket, which glues
the yen sign to the digit; only the second pass removes the resulting
price token, so cleaning the cleaned value changes it again. -/
theorem c7_cleanName_not_idempotent :
    cleanPerformerName (cleanPerformerName "¥(1D)1") ≠
      cleanPerformerName "¥(1D)1" := by decide

/-- C7 amended: cleanName is idempotent on the tested inputs (the name
strings exercised by the repository tests and the spec examples), though
not on every string: a pass that deletes an inner token can splice a new
removable token together, as the counterexample shows. -/
theorem c7_cleanName_idempotent_on_tested_inputs :
    (cleanNameTestInputs.all
      (fun x => cleanPerformerName (cleanPerformerName x) ==
        cleanPerformerName x)) = true := by decide

/-! ### C8: the name validity table -/

/-- C8: the performer-name validity check rejects the listed time, price,
navigation, day-of-week, numeric and punctuation inputs and every
single-character string, and accepts the two band names. -/
theorem c8_name_validity_table :
    isValidPerformerName "19:00" = false ∧
    isValidPerformerName "¥3000" = false ∧
    isValidPerformerName "SCHEDULE" = false ∧
    isValidPerformerName "月" = false ∧
    isValidPerformerName "123" = false ∧
    isValidPerformerName "---" = false ∧
    (∀ c : Char, isValidPerformerName (String.mk [c]) = false) ∧
    isValidPerformerName "Band A" = true ∧
    isValidPerformerName "テストバンド" = true :=
  ⟨by decide, by decide, by decide, by decide, by decide, by decide,
   fun _ => rfl, by decide, by decide⟩

/-! ### C3: year resolution of month/day-only dates -/

/-- C3 counterexample: the generic schedule extractor does not apply the
roll-forward rule: it stamps the fixed default year 2025 on month/day-only
dates, so with reference date 2025-12-20 the token 1/5 resolves to
2025-01-05 instead of the 2026-01-05 required by the rule. -/
theorem c3_genericExtractor_fixed_year :
    genericPartialDate 1 5 = some "2025-01-05" ∧
    specRollForwardYear 2025 12 1 = 2026 ∧
    genericPartialDateYear 1 5 ≠ specRollForwardYear 2025 12 1 := by
  refine ⟨by decide, by decide, by decide⟩

/-- C3 amended: the venue-specific Malcolm extractor resolves month/day
tokens exactly by the roll-forward rule (reference year plus one when the
parsed month lies before the reference month, the reference year
otherwise); the generic extractor instead assigns the fixed default year
2025 to such tokens. -/
theorem c3_malcolm_follows_roll_forward :
    (∀ refYear refMonth month day : Nat,
      malcolmScheduleDate refYear refMonth month day =
        fmtDate (specRollForwardYear refYear refMonth month) month day) ∧
    (∀ month day : Nat, genericPartialDateYear month day = 2025) := by
  constructor
  · intro y rm m d
    simp [malcolmScheduleDate, malcolmYearFor, specRollForwardYear]
  · intro m d
    rfl

/-! ### C9: registry miss -/

/-- C9 counterexample: a registry miss raises the plain ValueError of the
source, not the UnknownCrawlerError the claim names (the source defines no
such class); the state is untouched. -/
theorem c9_registry_miss_raises_valueError :
    runCrawler (fun _ => none) timeoutEnv demoStorage demoWebsite =
      (demoStorage,
       some (.valueError "No crawler found for class: LiveHouseWebsiteCrawler")) ∧
    some (CrawlError.valueError "No crawler found for class: LiveHouseWebsiteCrawler") ≠
      some CrawlError.unknownCrawlerError := by
  refine ⟨by decide, by decide⟩

/-- C9 amended: running the registry with a key that has no registered
implementation fails fast by raising ValueError (with the miss message of
the source); no crawler runs and no state is changed. -/
theorem c9_amended_registry_miss_fails_fast :
    ∀ (registry : String → Option Strategy) (env : CrawlOracles)
      (s : Storage) (w : WebsiteRow),
      registry w.crawlerClass = none →
      runCrawler registry env s w =
        (s, some (.valueError ("No crawler found for class: " ++ w.crawlerClass))) := by
  intro registry env s w h
  simp [runCrawler, h]

/-- C9 amended witness: the fail-fast theorem applied to the demo website
and the empty registry. -/
theorem c9_amended_witness :
    runCrawler (fun _ => none) timeoutEnv demoStorage demoWebsite =
      (demoStorage,
       some (.valueError ("No crawler found for class: " ++ demoWebsite.crawlerClass))) :=
  c9_amended_registry_miss_fails_fast (fun _ => none) timeoutEnv demoStorage
    demoWebsite rfl

/-! ### C10: transactional rollback of a failing run -/

/-- C10: a crawl run that terminates by raising an exception leaves
website, venue, schedule and performer storage exactly as before the run:
the body executes inside a single transaction and the re-raise rolls back
every write, the IN_PROGRESS marker and the handler writes of FAILED and
of the TIMEOUT or ERROR venue outcome included. -/
theorem c10_run_rolls_back_on_exception :
    ∀ (env : CrawlOracles) (strat : Strategy) (s0 s1 : Storage)
      (w : WebsiteRow) (e : CrawlError),
      run env strat s0 w = (s1, some e) → s1 = s0 := by
  intro env strat s0 s1 w e h
  unfold run at h
  rcases hb : runBody env strat s0 w with ⟨st, err⟩
  rw [hb] at h
  cases err with
  | none => simp at h
  | some e2 =>
      simp at h
      exact h.1.symm

/-- C10 witness: a timed-out demo run raises; the body did write state
(the store it produced differs from the original), yet the run returns the
original store. -/
theorem c10_witness :
    (run timeoutEnv demoStrategy demoStorage demoWebsite).1 = demoStorage ∧
    (runBody timeoutEnv demoStrategy demoStorage demoWebsite).1 ≠ demoStorage :=
  ⟨c10_run_rolls_back_on_exception timeoutEnv demoStrategy demoStorage
      (run timeoutEnv demoStrategy demoStorage demoWebsite).1 demoWebsite
      .fetchTimeout (by decide),
   by decide⟩

/-! ### C4: schedule upsert by natural key -/

/-- C4 counterexample: the schedule upsert is get-or-create, not update:
persisting the same (venue, date, start time) key a second time with a
different open time leaves the stored row holding the first open time, so
the second call does not update the row as the claim states. -/
theorem c4_second_persist_does_not_update :
    ((scheduleGetOrCreate
        (scheduleGetOrCreate [] 1 "2025-01-05" "19:00" "18:30" "").1
        1 "2025-01-05" "19:00" "18:00" "").1.map (fun r => r.openTime)
      = ["18:30"]) ∧
    ¬ ((scheduleGetOrCreate
        (scheduleGetOrCreate [] 1 "2025-01-05" "19:00" "18:30" "").1
        1 "2025-01-05" "19:00" "18:00" "").1.map (fun r => r.openTime)
      = ["18:00"]) := by
  refine ⟨by decide, by decide⟩

/-- C4 amended: persisting a schedule twice with the identical (venue,
date, start time) key produces exactly one stored row for that key; the
second call returns the existing row unchanged (get-or-create rather than
update), so repeated crawls never create duplicate rows for the slot. -/
theorem c4_amended_upsert_unique :
    ∀ (rows : List ScheduleRow) (lhId : Nat) (date st o1 n1 o2 n2 : String),
      rows.countP (scheduleKeyEq lhId date st) = 0 →
      ((scheduleGetOrCreate (scheduleGetOrCreate rows lhId date st o1 n1).1
          lhId date st o2 n2).1.countP (scheduleKeyEq lhId date st) = 1 ∧
       (scheduleGetOrCreate (scheduleGetOrCreate rows lhId date st o1 n1).1
          lhId date st o2 n2).1 =
         (scheduleGetOrCreate rows lhId date st o1 n1).1) := by
  intro rows lhId date st o1 n1 o2 n2 h0
  have hfind := findFirstIdx_eq_none_of_countP_zero
    (p := scheduleKeyEq lhId date st) h0
  have hkey : scheduleKeyEq lhId date st
      { liveHouseId := lhId, performanceDate := date, openTime := o1,
        startTime := st, performanceName := n1, performerNames := [] } = true := by
    simp [scheduleKeyEq]
  have h1 : scheduleGetOrCreate rows lhId date st o1 n1 =
      (rows ++ [{ liveHouseId := lhId, performanceDate := date, openTime := o1,
                  startTime := st, performanceName := n1, performerNames := [] }],
       rows.length) := by
    simp [scheduleGetOrCreate, hfind]
  have h2 := findFirstIdx_append_singleton hfind hkey
  rw [h1]
  constructor
  · simp [scheduleGetOrCreate, h2, hfind, List.countP_append, h0,
      List.countP_cons, hkey]
  · simp [scheduleGetOrCreate, h2, hfind]

/-- C4 amended witness: the upsert theorem applied to the empty store and
two persists of the same slot with different open times. -/
theorem c4_amended_witness :
    ((scheduleGetOrCreate
        (scheduleGetOrCreate [] 1 "2025-01-05" "19:00" "18:30" "").1
        1 "2025-01-05" "19:00" "18:00" "").1.countP
      (scheduleKeyEq 1 "2025-01-05" "19:00") = 1 ∧
     (scheduleGetOrCreate
        (scheduleGetOrCreate [] 1 "2025-01-05" "19:00" "18:30" "").1
        1 "2025-01-05" "19:00" "18:00" "").1 =
       (scheduleGetOrCreate [] 1 "2025-01-05" "19:00" "18:30" "").1) :=
  c4_amended_upsert_unique [] 1 "2025-01-05" "19:00" "18:30" "" "18:00" ""
    (by decide)

/-! ### C5: performer dedup by romanized name -/

/-- C5: upserting two performer candidates that resolve to the same
romanized name, with different display names, yields exactly one stored
row keyed on that romaji; the row keeps the first-created display name and
the second call changes nothing.  The hypothesis that the romaji is a
fixed point of the save cleaning holds for every romanizer output of
interest. -/
theorem c5_performer_dedup_by_romaji :
    ∀ (rows : List PerformerRow) (romaji n1 k1 w1 n2 k2 w2 : String),
      rows.countP (fun r => r.nameRomaji == romaji) = 0 →
      performerSaveClean romaji = romaji →
      ((performerGetOrCreateByRomaji
          (performerGetOrCreateByRomaji rows romaji n1 k1 w1).1
          romaji n2 k2 w2).1.countP (fun r => r.nameRomaji == romaji) = 1 ∧
       (performerGetOrCreateByRomaji
          (performerGetOrCreateByRomaji rows romaji n1 k1 w1).1
          romaji n2 k2 w2).2.name = performerSaveClean n1 ∧
       (performerGetOrCreateByRomaji
          (performerGetOrCreateByRomaji rows romaji n1 k1 w1).1
          romaji n2 k2 w2).1 =
         (performerGetOrCreateByRomaji rows romaji n1 k1 w1).1) := by
  intro rows romaji n1 k1 w1 n2 k2 w2 h0 hclean
  have hfindNone := find?_eq_none_of_countP_zero
    (p := fun (r : PerformerRow) => r.nameRomaji == romaji) h0
  have hkey : (fun (r : PerformerRow) => r.nameRomaji == romaji)
      { name := performerSaveClean n1, nameKana := performerSaveClean k1,
        nameRomaji := performerSaveClean romaji, website := w1 } = true := by
    simp [hclean]
  have h1 : performerGetOrCreateByRomaji rows romaji n1 k1 w1 =
      (rows ++ [{ name := performerSaveClean n1, nameKana := performerSaveClean k1,
                  nameRomaji := performerSaveClean romaji, website := w1 }],
       { name := performerSaveClean n1, nameKana := performerSaveClean k1,
         nameRomaji := performerSaveClean romaji, website := w1 }) := by
    simp [performerGetOrCreateByRomaji, hfindNone]
  rw [h1]
  refine ⟨?_, ?_, ?_⟩
  · simp [performerGetOrCreateByRomaji, hfindNone, List.countP_append, h0,
      List.countP_cons, hclean]
  · simp [performerGetOrCreateByRomaji, hfindNone, hclean]
  · simp [performerGetOrCreateByRomaji, hfindNone, hclean]

/-- C5 witness: the dedup theorem applied to two candidates differing only
in display-name casing that share the romaji. -/
theorem c5_witness :
    ((performerGetOrCreateByRomaji
        (performerGetOrCreateByRomaji [] "band a" "Band A" "band a" "").1
        "band a" "BAND A" "band a" "").1.countP
      (fun r => r.nameRomaji == "band a") = 1 ∧
     (performerGetOrCreateByRomaji
        (performerGetOrCreateByRomaji [] "band a" "Band A" "band a" "").1
        "band a" "BAND A" "band a" "").2.name = performerSaveClean "Band A" ∧
     (performerGetOrCreateByRomaji
        (performerGetOrCreateByRomaji [] "band a" "Band A" "band a" "").1
        "band a" "BAND A" "band a" "").1 =
       (performerGetOrCreateByRomaji [] "band a" "Band A" "band a" "").1) :=
  c5_performer_dedup_by_romaji [] "band a" "Band A" "band a" "" "BAND A" "band a" ""
    (by decide) (by decide)

/-! ### C2: entries with no valid performer are dropped -/

/-- When every name of the list has no stored performer row and fails the
probe-backed validation, the validation loop collects nothing. -/
theorem collectValidPerformers_nil_of_all_fail (env : CrawlOracles)
    (performers : List PerformerRow) :
    ∀ names : List String,
      (∀ n ∈ names, performers.find? (fun r => r.name == n) = none ∧
        (searchForPerformerDetails env.unsavedQuery env.probe
          (buildCandidate env n)).isOk = false) →
      collectValidPerformers env performers names = [] := by
  intro names
  induction names with
  | nil => intro _; rfl
  | cons n rest ih =>
      intro h
      obtain ⟨h1, h2⟩ := h n (List.mem_cons_self n rest)
      have hrest := fun m hm => h m (List.mem_cons_of_mem n hm)
      have herr : ∃ msg,
          searchForPerformerDetails env.unsavedQuery env.probe
            (buildCandidate env n) = .error msg := by
        cases hs : searchForPerformerDetails env.unsavedQuery env.probe
            (buildCandidate env n) with
        | ok c => rw [hs] at h2; simp [Except.isOk, Except.toBool] at h2
        | error msg => exact ⟨msg, rfl⟩
      obtain ⟨msg, hmsg⟩ := herr
      simp [collectValidPerformers, h1, hmsg, ih hrest]

/-- C2: a schedule entry whose every performer candidate fails validation
is never persisted: the creation raises the no-valid-performers error
before any write, the per-entry loop catches it, the store (and with it
the stored schedule count) is unchanged and processing continues with the
next entry. -/
theorem c2_entry_with_no_valid_performer_dropped :
    ∀ (env : CrawlOracles) (s : Storage) (lh : LiveHouseRow)
      (d : ScheduleData) (rest : List ScheduleData),
      (∀ n ∈ cleanValidNames d.performers,
        s.performers.find? (fun r => r.name == n) = none ∧
        (searchForPerformerDetails env.unsavedQuery env.probe
          (buildCandidate env n)).isOk = false) →
      createPerformanceSchedule env s lh d =
        .error (.valueError "No valid performers for this schedule") ∧
      processSchedulesLoop env lh s (d :: rest) =
        processSchedulesLoop env lh s rest := by
  intro env s lh d rest h
  have hnil := collectValidPerformers_nil_of_all_fail env s.performers
    (cleanValidNames d.performers) h
  have hc : createPerformanceSchedule env s lh d =
      .error (.valueError "No valid performers for this schedule") := by
    simp [createPerformanceSchedule, hnil]
  exact ⟨hc, by simp [processSchedulesLoop, hc]⟩

/-- C2 witness: the drop theorem applied to the ghost entry, whose only
candidate has no stored row and fails the probe-backed validation. -/
theorem c2_witness :
    createPerformanceSchedule timeoutEnv demoStorage demoVenue ghostEntry =
      .error (.valueError "No valid performers for this schedule") ∧
    processSchedulesLoop timeoutEnv demoVenue demoStorage [ghostEntry] =
      processSchedulesLoop timeoutEnv demoVenue demoStorage [] :=
  c2_entry_with_no_valid_performer_dropped timeoutEnv demoStorage demoVenue
    ghostEntry []
    (by
      intro n hn
      have hname : n = "Ghost Band" := by
        have hlist : cleanValidNames ghostEntry.performers = ["Ghost Band"] := by
          decide
        rw [hlist] at hn
        simpa using hn
      subst hname
      exact ⟨by decide, by decide⟩)

/-! ### C6: the online-presence acceptance condition -/

/-- C6: the executed validation gate evaluated at the failing inputs,
against the acceptance rule that the claim, and the documentation of the
source itself, state.  A candidate with a discovered social link is
rejected when the unsaved-relation query matches no rows, because the
link was never attached to the candidate, although the claimed rule (and
the profile validation as it would run with the link stored) accepts it;
and a candidate with no online presence at all is accepted when the query
raises, because the blanket handler swallows the ValueError, although the
claimed rule (and the stored-row validation) rejects it.  Under either
behaviour of the query the discovered links never influence acceptance,
so the gate the source documents is not the gate it executes. -/
theorem c6_presence_gate_code_bug :
    (searchForPerformerDetails .matchesNoRows socialProbe realBandCand).isOk
      = false ∧
    specGateAccepts socialProbe realBandCand = true ∧
    (validateFullArtistProfile
        { realBandCand with socialLinks := [demoTwitterLink] }).isOk = true ∧
    (searchForPerformerDetails .raisesValueError emptyProbe ghostCand).isOk
      = true ∧
    specGateAccepts emptyProbe ghostCand = false ∧
    (validateFullArtistProfile ghostCand).isOk = false := by
  refine ⟨by decide, by decide, by decide, by decide, by decide, by decide⟩

/-! ### C1: the batch iteration on a timed-out run -/

/-- C1 counterexample: with the main-page fetch timing out, after the run
and the enclosing batch iteration the venue outcome is still PENDING, not
the TIMEOUT the claim states: the handler skips the venue write because
the live_house local is not yet bound when the main fetch raises, and the
transaction rollback would discard the write anyway.  The website does end
FAILED (re-saved by the batch driver) and exactly one failure is counted. -/
theorem c1_timeout_leaves_venue_pending :
    ((collectSchedules (fun _ => some demoStrategy) timeoutEnv demoStorage).1.liveHouses.map
        (fun h => h.lastCollectionState) = [.pending]) ∧
    CollectionState.pending ≠ CollectionState.timeout ∧
    ((collectSchedules (fun _ => some demoStrategy) timeoutEnv demoStorage).1.websites.map
        (fun w => w.state) = [.failed]) ∧
    (collectSchedules (fun _ => some demoStrategy) timeoutEnv demoStorage).2.failed = 1 := by
  refine ⟨by decide, by decide, by decide, by decide⟩

/-- C1 amended: for a crawl run whose main-page fetch raises a timeout,
the enclosing batch iteration records FAILED on the website (written by
the batch driver after the rollback of the run), increments failed_count
by exactly one, and continues with the remaining websites; the venue rows,
their last_collection_state included, are exactly as before the run, so
the TIMEOUT outcome is not recorded. -/
theorem c1_amended_timeout_iteration :
    ∀ (registry : String → Option Strategy) (strat : Strategy)
      (env : CrawlOracles) (s : Storage) (w : WebsiteRow)
      (ws : List WebsiteRow) (counts : BatchCounts),
      registry w.crawlerClass = some strat →
      env.fetch w.url = .error .timeout →
      collectLoop registry env s (w :: ws) counts =
        collectLoop registry env (setWebsiteState s w.id .failed) ws
          { counts with failed := counts.failed + 1 } ∧
      (setWebsiteState s w.id .failed).liveHouses = s.liveHouses := by
  intro registry strat env s w ws counts hreg hfetch
  constructor
  · have hrun : runCrawler registry env s w = (s, some .fetchTimeout) := by
      simp [runCrawler, hreg, run, runBody, hfetch, fetchToError]
    simp [collectLoop, collectIteration, hrun]
  · rfl

/-- C1 amended witness: the iteration theorem at the demo store with the
timing-out oracles and an empty remainder of the batch. -/
theorem c1_amended_witness :
    (collectLoop (fun _ => some demoStrategy) timeoutEnv demoStorage [demoWebsite]
        { success := 0, failed := 0 } =
      collectLoop (fun _ => some demoStrategy) timeoutEnv
        (setWebsiteState demoStorage demoWebsite.id .failed) []
        { success := 0, failed := 0 + 1 } ∧
     (setWebsiteState demoStorage demoWebsite.id .failed).liveHouses =
       demoStorage.liveHouses) :=
  c1_amended_timeout_iteration (fun _ => some demoStrategy) demoStrategy timeoutEnv
    demoStorage demoWebsite [] { success := 0, failed := 0 } rfl rfl

end Hakoake
